import Mathlib

/- Shallow embedding of src/app.py, the weekly-update engine of the
weekupdate repository.  Python strings are modelled as List Char.  The
external collaborators (the DuckDuckGo search backend, the HTTP page
fetcher behind get_page, and the LLM behind llmproxy.generate) are
modelled as explicit function-valued fields of an Env record; fallible
Python code returns Except. -/

/-- One search hit returned by the DuckDuckGo backend (the dict r of which
the code reads r["href"]). -/
structure SearchResult where
  href : List Char
  deriving DecidableEq, Repr

/-- Exceptions that the Python code in app.py can raise inside the
weekly-update try block. -/
inductive PyErr where
  | rateLimited
  | backendFailure
  | evalError
  | agentFailure
  | pageFailure
  deriving DecidableEq, Repr

/-- The ddg.text(query, max_results=5) backend call.  The Nat argument
indexes successive backend invocations made while evaluating one adapter
call; each tool function in app.py makes exactly one call, consulting
attempt 0.  A retrying wrapper would consult attempts 1, 2, ... as well. -/
abbrev DDG := Nat → List Char → Except PyErr (List SearchResult)

/-- The response of requests.get inside get_page, abstracted to the HTTP
status code plus the text that BeautifulSoup extracts after tag removal
(soup.get_text, before whitespace normalisation and slicing). -/
structure Page where
  status : Nat
  text : List Char
  deriving DecidableEq, Repr

/-- The user_info dict built in the weekly_update route. -/
structure UserInfo where
  name : List Char
  news_sources : List (List Char)
  news_pref : List Char
  deriving DecidableEq, Repr

/-- The health_info dict built in the weekly_update route. -/
structure HealthInfo where
  condition : List Char
  deriving DecidableEq, Repr

/-- The entry of one user in session_store.json.  The route reads the three
keys condition, news_pref and news_sources with .get defaults, so each is
Optional here (a missing key, not an empty value). -/
structure Session where
  condition : Option (List Char)
  news_pref : Option (List Char)
  news_sources : Option (List (List Char))
  deriving DecidableEq, Repr

/-- The session_dict store: an association of user names to sessions. -/
abbrev Store := List (List Char × Session)

/-- Python dict membership / indexing on the session store. -/
def lookupStore (store : Store) (k : List Char) : Option Session :=
  (store.find? (fun p => p.1 == k)).map (fun p => p.2)

/-- The external world as seen from the weekly_update route: the search
backend, the page fetcher, and the LLM (agent_weekly_update builds a
prompt from user_info and health_info and calls llmproxy.generate; the
response text is an arbitrary function of those two records). -/
structure Env where
  ddg : DDG
  fetch : List Char → Except PyErr Page
  generate : UserInfo → HealthInfo → Except PyErr (List Char)

/- ---------------------------------------------------------------------
   TOOL FUNCTIONS (src/app.py lines 35-68)
   --------------------------------------------------------------------- -/

/-- Substring containment of Python: pat in s. -/
def pyInStr (pat : List Char) : List Char → Bool
  | [] => pat.isEmpty
  | c :: rest => pat.isPrefixOf (c :: rest) || pyInStr pat rest

/-- websearch(query) [app.py 35-38]: one ddg.text call, no augmentation,
no filter, returns the href of every result. -/
def websearch (ddg : DDG) (query : List Char) : Except PyErr (List (List Char)) :=
  match ddg 0 query with
  | .error e => .error e
  | .ok results => .ok (results.map (fun r => r.href))

/-- The Python single-character str.replace(old, new): every occurrence of
old is replaced by new. -/
def pyReplaceChar (s : List Char) (old : Char) (new : List Char) : List Char :=
  match s with
  | [] => []
  | c :: rest =>
      if c = old then new ++ pyReplaceChar rest old new
      else c :: pyReplaceChar rest old new

/-- The Python str.split() with no separator: split on runs of whitespace,
dropping empty pieces.  Accumulator holds the current word reversed. -/
def pySplitWsAux (cur : List Char) : List Char → List (List Char)
  | [] => if cur.isEmpty then [] else [cur.reverse]
  | c :: rest =>
      if c.isWhitespace then
        if cur.isEmpty then pySplitWsAux [] rest
        else cur.reverse :: pySplitWsAux [] rest
      else pySplitWsAux (c :: cur) rest

def pySplitWs (s : List Char) : List (List Char) :=
  pySplitWsAux [] s

/-- get_page(url) [app.py 41-51]: fetch the page; on status 200 return
" ".join(text.split())[:1500] of the extracted text, otherwise the
"Failed to fetch" message.  A raised requests exception propagates. -/
def get_page (fetch : List Char → Except PyErr Page) (url : List Char) :
    Except PyErr (List Char) :=
  match fetch url with
  | .error e => .error e
  | .ok page =>
      if page.status = 200 then
        .ok ((List.intercalate [' '] (pySplitWs page.text)).take 1500)
      else
        .ok ("Failed to fetch ".toList ++ url ++ ", status code: ".toList
              ++ (Nat.repr page.status).toList)

/-- youtube_search(query) [app.py 53-56]: append the site restriction and
keep only hrefs containing "youtube.com/watch". -/
def youtube_search (ddg : DDG) (query : List Char) : Except PyErr (List (List Char)) :=
  match ddg 0 (query ++ " site:youtube.com".toList) with
  | .error e => .error e
  | .ok results =>
      .ok ((results.filter
              (fun r => pyInStr ("youtube.com/watch".toList) r.href)).map
            (fun r => r.href))

/-- tiktok_search(query) [app.py 58-61]: append the site restriction and
keep only hrefs containing "tiktok.com". -/
def tiktok_search (ddg : DDG) (query : List Char) : Except PyErr (List (List Char)) :=
  match ddg 0 (query ++ " site:tiktok.com".toList) with
  | .error e => .error e
  | .ok results =>
      .ok ((results.filter
              (fun r => pyInStr ("tiktok.com".toList) r.href)).map
            (fun r => r.href))

/-- instagram_search(query) [app.py 64-68]: strip spaces from the query,
prepend a hash sign, append the site restriction, and keep only hrefs
containing "instagram.com". -/
def instagram_search (ddg : DDG) (query : List Char) : Except PyErr (List (List Char)) :=
  let hashtag := pyReplaceChar query ' ' []
  match ddg 0 (('#' :: hashtag) ++ " site:instagram.com".toList) with
  | .error e => .error e
  | .ok results =>
      .ok ((results.filter
              (fun r => pyInStr ("instagram.com".toList) r.href)).map
            (fun r => r.href))

/- ---------------------------------------------------------------------
   TOOL PARSER (src/app.py lines 71-76)
   --------------------------------------------------------------------- -/

/-- Scan for the first close parenthesis; some inner means the scanned
text is inner ++ close-paren ++ rest.  This is the regex piece
[^)]*\) applied after the tool name and open parenthesis. -/
def scanInner : List Char → Option (List Char)
  | [] => none
  | c :: rest =>
      if c = ')' then some []
      else
        match scanInner rest with
        | some inner => some (c :: inner)
        | none => none

/-- re.search of the pattern tool\([^)]*\) in s: try each start position
from the left; at the first position where the literal tool name and an
open parenthesis match and a close parenthesis follows somewhere, return
the whole matched text tool(inner). -/
def matchToolFrom (tool : List Char) : List Char → Option (List Char)
  | [] => none
  | c :: rest =>
      if (tool ++ ['(']).isPrefixOf (c :: rest) then
        match scanInner ((c :: rest).drop (tool.length + 1)) with
        | some inner => some (tool ++ '(' :: (inner ++ [')']))
        | none => matchToolFrom tool rest
      else matchToolFrom tool rest

/-- The tool names recognised by extract_tool, in the order the Python
for-loop tries them [app.py 72]. -/
def toolList : List (List Char) :=
  ["websearch".toList, "get_page".toList, "youtube_search".toList,
   "tiktok_search".toList, "instagram_search".toList]

/-- extract_tool(text) [app.py 71-76]: the first tool name (in toolList
order) whose pattern matches somewhere in the text wins; the matched
call text is returned, else None. -/
def extract_tool (text : List Char) : Option (List Char) :=
  toolList.findSome? (fun tool => matchToolFrom tool text)

/-- The rendered call line toolName("query"): the textual shape that the grammar
round-trip property of the spec is about. -/
def render_call (tool q : List Char) : List Char :=
  tool ++ '(' :: '"' :: (q ++ ['"', ')'])

/- ---------------------------------------------------------------------
   eval OF A TOOL-CALL STRING (src/app.py line 197)
   --------------------------------------------------------------------- -/

/-- Peel tool(inner) from a call string: the call must start with the
tool name and an open parenthesis and end with a close parenthesis. -/
def stripCall (tool : List Char) (call : List Char) : Option (List Char) :=
  if (tool ++ ['(']).isPrefixOf call = true ∧ call.getLast? = some ')' then
    some ((call.drop (tool.length + 1)).dropLast)
  else none

/-- Parse the argument text as a double-quoted Python string literal with
no embedded quote; anything else is treated as raising in eval. -/
def parseQuotedArg (inner : List Char) : Option (List Char) :=
  match inner with
  | '"' :: rest =>
      match rest.getLast? with
      | some '"' =>
          let mid := rest.dropLast
          if '"' ∈ mid then none else some mid
      | _ => none
  | _ => none

/-- Each character of a Python string as one iterated item: iterating a
string (as "\n".join(...) does when eval returned the get_page string)
yields its characters. -/
def char_items (s : List Char) : List (List Char) :=
  s.map (fun c => [c])

/-- eval(tool_call) [app.py 197] restricted to the call shapes this
program produces: one of the five tool names applied to one double-quoted
string literal.  Any other text raises (NameError / SyntaxError /
TypeError), modelled as evalError.  The search tools return their URL
list; get_page returns a string, which the subsequent join iterates
character by character. -/
def evalCall (env : Env) (call : List Char) : Except PyErr (List (List Char)) :=
  match stripCall ("websearch".toList) call with
  | some inner =>
      match parseQuotedArg inner with
      | some q => websearch env.ddg q
      | none => .error .evalError
  | none =>
  match stripCall ("get_page".toList) call with
  | some inner =>
      match parseQuotedArg inner with
      | some url =>
          match get_page env.fetch url with
          | .error e => .error e
          | .ok s => .ok (char_items s)
      | none => .error .evalError
  | none =>
  match stripCall ("youtube_search".toList) call with
  | some inner =>
      match parseQuotedArg inner with
      | some q => youtube_search env.ddg q
      | none => .error .evalError
  | none =>
  match stripCall ("tiktok_search".toList) call with
  | some inner =>
      match parseQuotedArg inner with
      | some q => tiktok_search env.ddg q
      | none => .error .evalError
  | none =>
  match stripCall ("instagram_search".toList) call with
  | some inner =>
      match parseQuotedArg inner with
      | some q => instagram_search env.ddg q
      | none => .error .evalError
  | none => .error .evalError

/- ---------------------------------------------------------------------
   THE /weekly_update ROUTE (src/app.py lines 143-208)
   --------------------------------------------------------------------- -/

/-- Python str.lower on ASCII text. -/
def pyLower (s : List Char) : List Char :=
  s.map Char.toLower

/-- The fallback block [app.py 179-192]: map the lowercased news
preference through tool_map (defaulting to the "research news" key) and
build the call tool("<condition> tips"). -/
def fallback_tool_call (condition news_pref : List Char) : List Char :=
  let pref := pyLower news_pref
  let call := fun (tool : List Char) =>
    tool ++ '(' :: '"' :: (condition ++ " tips\")".toList)
  if pref = "youtube".toList then call ("youtube_search".toList)
  else if pref = "tiktok".toList then call ("tiktok_search".toList)
  else if pref = "instagram reel".toList then call ("instagram_search".toList)
  else call ("websearch".toList)

/-- The user_info dict construction [app.py 159-164]. -/
def mkUserInfo (user_name : List Char) (sess : Session) : UserInfo :=
  { name := user_name
    news_sources := sess.news_sources.getD ["bbc.com".toList, "nytimes.com".toList]
    news_pref := sess.news_pref.getD ("Research News".toList) }

/-- The health_info dict construction [app.py 166-168]. -/
def mkHealthInfo (sess : Session) : HealthInfo :=
  { condition := sess.condition.getD ("unknown condition".toList) }

/-- A request-level failure of the route: the 404 branch, or an exception
caught by the except block (the 500 branch). -/
inductive ReqFailure where
  | notFound
  | raised (e : PyErr)
  deriving DecidableEq, Repr

/-- The default for request.args.get("user", "default_user"). -/
def default_user : List Char :=
  "default_user".toList

/-- The body of the weekly_update route up to building the results list
[app.py 152-197]: resolve the user, look up the session (404 when
absent), call the agent, extract the tool call or fall back, and eval
it.  On success returns (agent_response, executed tool call, results
list before rendering). -/
def weekly_update_core (env : Env) (store : Store) (userArg : Option (List Char)) :
    Except ReqFailure (List Char × List Char × List (List Char)) :=
  let user_name := userArg.getD default_user
  match lookupStore store user_name with
  | none => .error .notFound
  | some sess =>
      let user_info := mkUserInfo user_name sess
      let health_info := mkHealthInfo sess
      match env.generate user_info health_info with
      | .error e => .error (.raised e)
      | .ok agent_response =>
          let tool_call :=
            match extract_tool agent_response with
            | some tc => tc
            | none => fallback_tool_call health_info.condition user_info.news_pref
          match evalCall env tool_call with
          | .error e => .error (.raised e)
          | .ok results => .ok (agent_response, tool_call, results)

/-- output = "\n".join(f"• {item}" for item in results) [app.py 198]. -/
def render_results (results : List (List Char)) : List Char :=
  List.intercalate ['\n'] (results.map (fun item => '•' :: ' ' :: item))

/-- The three possible HTTP responses of the route: the 200 JSON payload
(agent_response, executed_tool, results string), the 404 user-not-found
error, and the 500 error carrying the caught exception. -/
inductive Resp where
  | ok (agent_response executed_tool results : List Char)
  | notFound
  | err (e : PyErr)
  deriving DecidableEq, Repr

/-- weekly_update [app.py 143-208] as a state-passing function: the route
only ever reads session_dict, so the returned store is the input store
unchanged. -/
def weekly_update (env : Env) (store : Store) (userArg : Option (List Char)) :
    Resp × Store :=
  (match weekly_update_core env store userArg with
   | .error .notFound => .notFound
   | .error (.raised e) => .err e
   | .ok (a, t, results) => .ok a t (render_results results),
   store)

/- ---------------------------------------------------------------------
   CONCRETE SESSIONS, STORES AND ENVIRONMENTS
   (explicit inputs on which the route is evaluated)
   --------------------------------------------------------------------- -/

/-- A fully onboarded session: condition diabetes, preference Research
News. -/
def sessEx : Session :=
  { condition := some ("diabetes".toList)
    news_pref := some ("Research News".toList)
    news_sources := some ["bbc.com".toList] }

/-- A store holding exactly the user alice. -/
def storeEx : Store :=
  [("alice".toList, sessEx)]

/-- The same store with one extra, unrelated user. -/
def storeEx2 : Store :=
  storeEx ++ [("bob".toList, sessEx)]

/-- The request argument user=alice. -/
def aliceArg : Option (List Char) :=
  some ("alice".toList)

/-- A page fetcher that serves one known URL with status 200. -/
def okPage : List Char → Except PyErr Page := fun url =>
  if url = "https://example.com/a".toList then
    .ok { status := 200, text := "hi".toList }
  else
    .ok { status := 404, text := [] }

/-- A backend returning the same two results for every query. -/
def ddgTwo : DDG := fun _ _ =>
  .ok [{ href := "https://a.example/1".toList },
       { href := "https://b.example/2".toList }]

/-- An agent response holding exactly one websearch call. -/
def txtOneCall : List Char :=
  "websearch(\"diabetes news\")".toList

/-- Environment: agent proposes one websearch call, backend returns two
results. -/
def envTwoResults : Env :=
  { ddg := ddgTwo, fetch := okPage, generate := fun _ _ => .ok txtOneCall }

/-- An agent response holding three distinct valid youtube_search calls. -/
def txtThreeCalls : List Char :=
  ("youtube_search(\"a\")\n" ++ "youtube_search(\"b\")\n"
    ++ "youtube_search(\"c\")").toList

/-- A backend that has one watch result for query a and none otherwise. -/
def ddgWatchA : DDG := fun _ q =>
  if q = "a site:youtube.com".toList then
    .ok [{ href := "https://www.youtube.com/watch?v=x1".toList }]
  else .ok []

/-- Environment: agent proposes three distinct calls. -/
def envThreeCalls : Env :=
  { ddg := ddgWatchA, fetch := okPage, generate := fun _ _ => .ok txtThreeCalls }

/-- Environment: agent proposes one call, backend always fails with a
generic (non-rate-limit) error. -/
def envBackendDown : Env :=
  { ddg := fun _ _ => .error .backendFailure, fetch := okPage,
    generate := fun _ _ => .ok txtOneCall }

/-- An agent response with no tool call in it. -/
def txtNoCall : List Char :=
  "I am sorry, I cannot recommend anything this week.".toList

/-- A backend with one result for the fallback query diabetes tips. -/
def ddgTips : DDG := fun _ q =>
  if q = "diabetes tips".toList then
    .ok [{ href := "https://news.example/x".toList }]
  else .ok []

/-- Environment: agent returns malformed text, backend serves the
fallback query. -/
def envMalformed : Env :=
  { ddg := ddgTips, fetch := okPage, generate := fun _ _ => .ok txtNoCall }

/-- A backend that is rate-limited on attempt 0 and would succeed on any
retry attempt. -/
def ddgRateLimited : DDG := fun n _ =>
  if n = 0 then .error .rateLimited
  else .ok [{ href := "https://ok.example/r".toList }]

/-- A backend returning a tiktok profile URL with no video path segment. -/
def ddgTikProfile : DDG := fun _ _ =>
  .ok [{ href := "https://www.tiktok.com/@doc".toList }]

/-- An agent response holding exactly one get_page call. -/
def txtGetPage : List Char :=
  "get_page(\"https://example.com/a\")".toList

/-- Environment: agent proposes a get_page call on the known URL. -/
def envGetPage : Env :=
  { ddg := ddgTwo, fetch := okPage, generate := fun _ _ => .ok txtGetPage }

/-- A second rate-limited backend that agrees with ddgRateLimited on
attempt 0 but differs on later attempts. -/
def ddgRateLimitedAlt : DDG := fun n _ =>
  if n = 0 then .error .rateLimited else .ok []

/-- A backend returning an instagram profile URL with no post or reel
path segment. -/
def ddgInstaProfile : DDG := fun _ _ =>
  .ok [{ href := "https://www.instagram.com/doc".toList }]

/-- Environment: the LLM call itself raises. -/
def envGenDown : Env :=
  { ddg := ddgTwo, fetch := okPage,
    generate := fun _ _ => .error .agentFailure }

/-- Environment: agent returns malformed text and the backend fails, so
the fallback call fails while being executed. -/
def envMalformedDown : Env :=
  { ddg := fun _ _ => .error .backendFailure, fetch := okPage,
    generate := fun _ _ => .ok txtNoCall }

/-- Environment: agent proposes one call, backend finds nothing. -/
def envEmptyResults : Env :=
  { ddg := fun _ _ => .ok [], fetch := okPage,
    generate := fun _ _ => .ok txtOneCall }

/- ---------------------------------------------------------------------
   THEOREMS
   --------------------------------------------------------------------- -/

/-- Claim C1, counterexample: with user alice present, a generator
producing one websearch call and a backend returning two results, the
results sequence of the weekly update has exactly 2 entries — not the
configured target of 3 or 5; nothing pads it. -/
theorem digest_results_not_fixed_count :
    weekly_update_core envTwoResults storeEx aliceArg =
      .ok (txtOneCall, txtOneCall,
        ["https://a.example/1".toList, "https://b.example/2".toList]) ∧
    (["https://a.example/1".toList,
      "https://b.example/2".toList] : List (List Char)).length = 2 :=
  ⟨rfl, rfl⟩

/-- Claim C5, counterexample: under a backend that is rate-limited on the
first attempt and would succeed on a retry, websearch propagates the
rate-limit error immediately — it makes no second attempt and no
backoff. -/
theorem websearch_no_retry_on_ratelimit :
    websearch ddgRateLimited ("diabetes".toList) = .error .rateLimited ∧
    ddgRateLimited 1 ("diabetes".toList) =
      .ok [{ href := "https://ok.example/r".toList }] :=
  ⟨rfl, rfl⟩

/-- Claim C5, amended: websearch consults the backend exactly once
(attempt 0) and any backend failure — rate-limit included — propagates
immediately, with no retry. -/
theorem websearch_single_attempt :
    (∀ (o o' : DDG) (q : List Char), (∀ s, o 0 s = o' 0 s) →
        websearch o q = websearch o' q) ∧
    (∀ (o : DDG) (q : List Char) (e : PyErr), o 0 q = .error e →
        websearch o q = .error e) := by
  constructor
  · intro o o' q h
    unfold websearch
    rw [h]
  · intro o q e h
    unfold websearch
    rw [h]

/-- Witness for websearch_single_attempt at concrete oracles. -/
theorem websearch_single_attempt_witness :
    websearch ddgRateLimited ("x".toList) = websearch ddgRateLimitedAlt ("x".toList) ∧
    websearch ddgRateLimited ("x".toList) = .error .rateLimited :=
  ⟨websearch_single_attempt.1 ddgRateLimited ddgRateLimitedAlt ("x".toList)
      (fun _ => rfl),
   websearch_single_attempt.2 ddgRateLimited ("x".toList) .rateLimited rfl⟩

/-- Claim C6, counterexample: tiktok_search returns a profile URL that
contains no video path segment, and instagram_search returns a profile
URL that contains no post or reel path segment — their filters only test
the domain substring. -/
theorem tiktok_filter_domain_only :
    tiktok_search ddgTikProfile ("gut".toList) =
      .ok ["https://www.tiktok.com/@doc".toList] ∧
    pyInStr ("/video/".toList) ("https://www.tiktok.com/@doc".toList) = false ∧
    instagram_search ddgInstaProfile ("gut".toList) =
      .ok ["https://www.instagram.com/doc".toList] ∧
    pyInStr ("/p/".toList) ("https://www.instagram.com/doc".toList) = false ∧
    pyInStr ("/reel/".toList) ("https://www.instagram.com/doc".toList) = false :=
  ⟨rfl, rfl, rfl, rfl, rfl⟩

/-- Claim C6, amended: every URL youtube_search returns contains
"youtube.com/watch"; every URL tiktok_search returns contains
"tiktok.com"; every URL instagram_search returns contains
"instagram.com" — a domain substring, not a path segment, for the last
two. -/
theorem adapter_url_filters :
    (∀ (ddg : DDG) (q url : List Char) (urls : List (List Char)),
        youtube_search ddg q = .ok urls → url ∈ urls →
        pyInStr ("youtube.com/watch".toList) url = true) ∧
    (∀ (ddg : DDG) (q url : List Char) (urls : List (List Char)),
        tiktok_search ddg q = .ok urls → url ∈ urls →
        pyInStr ("tiktok.com".toList) url = true) ∧
    (∀ (ddg : DDG) (q url : List Char) (urls : List (List Char)),
        instagram_search ddg q = .ok urls → url ∈ urls →
        pyInStr ("instagram.com".toList) url = true) := by
  refine ⟨?_, ?_, ?_⟩ <;>
  · intro ddg q url urls h hm
    first
    | (unfold youtube_search at h)
    | (unfold tiktok_search at h)
    | (unfold instagram_search at h)
    try dsimp only at h
    split at h
    · exact absurd h (by simp)
    · injection h with h
      subst h
      simp only [List.mem_map, List.mem_filter] at hm
      obtain ⟨r, ⟨_, hr⟩, rfl⟩ := hm
      exact hr

/-- Witness for adapter_url_filters on concrete backends. -/
theorem adapter_url_filters_witness :
    pyInStr ("youtube.com/watch".toList)
      ("https://www.youtube.com/watch?v=x1".toList) = true ∧
    pyInStr ("tiktok.com".toList) ("https://www.tiktok.com/@doc".toList) = true :=
  ⟨adapter_url_filters.1 ddgWatchA ("a".toList)
      ("https://www.youtube.com/watch?v=x1".toList)
      ["https://www.youtube.com/watch?v=x1".toList] rfl (by simp),
   adapter_url_filters.2.1 ddgTikProfile ("gut".toList)
      ("https://www.tiktok.com/@doc".toList)
      ["https://www.tiktok.com/@doc".toList] rfl (by simp)⟩

/-- Helper: the Python replace of spaces by nothing is filtering spaces
out. -/
theorem pyReplaceChar_space (q : List Char) :
    pyReplaceChar q ' ' [] = q.filter (fun c => !(c == ' ')) := by
  induction q with
  | nil => rfl
  | cons c rest ih =>
      by_cases hc : c = ' '
      · subst hc
        simp [pyReplaceChar, List.filter_cons, ih]
      · have hb : (c == ' ') = false := beq_eq_false_iff_ne.mpr hc
        simp [pyReplaceChar, hc, List.filter_cons, ih, hb]

/-- Claim C10: for every query and every backend, instagram_search sends
hash + the query with all spaces removed + the instagram site
restriction to the backend — not the query text itself — and filters the
answers by the instagram.com substring. -/
theorem instagram_query_transform (ddg : DDG) (q : List Char) :
    instagram_search ddg q =
      (match ddg 0 (('#' :: q.filter (fun c => !(c == ' ')))
                      ++ " site:instagram.com".toList) with
       | .error e => .error e
       | .ok results =>
           .ok ((results.filter
                   (fun r => pyInStr ("instagram.com".toList) r.href)).map
                 (fun r => r.href))) := by
  simp only [instagram_search, pyReplaceChar_space]

/-- Claim C9: the parser recognises get_page as a fifth tool: on a text
holding only a get_page call it returns that call, and the weekly update
executes it (iterating the returned page text character by character). -/
theorem get_page_tool_recognized :
    extract_tool txtGetPage = some txtGetPage ∧
    weekly_update_core envGetPage storeEx aliceArg =
      .ok (txtGetPage, txtGetPage, [['h'], ['i']]) :=
  ⟨rfl, rfl⟩

/-- Claim C8: the weekly_update route never writes the session store —
the store it returns is its input store for every environment — and its
response depends on the store only through the entry of the requested user. -/
theorem weekly_update_store_unchanged (env : Env) (store store' : Store)
    (userArg : Option (List Char))
    (h : lookupStore store (userArg.getD default_user) =
         lookupStore store' (userArg.getD default_user)) :
    (weekly_update env store userArg).2 = store ∧
    (weekly_update env store userArg).1 = (weekly_update env store' userArg).1 := by
  refine ⟨rfl, ?_⟩
  simp only [weekly_update, weekly_update_core, h]

/-- Witness for weekly_update_store_unchanged on two concrete stores
agreeing on alice. -/
theorem weekly_update_store_unchanged_witness :
    (weekly_update envTwoResults storeEx aliceArg).2 = storeEx ∧
    (weekly_update envTwoResults storeEx aliceArg).1 =
      (weekly_update envTwoResults storeEx2 aliceArg).1 :=
  weekly_update_store_unchanged envTwoResults storeEx storeEx2 aliceArg rfl

/-- Helper: the success cases of weekly_update_core, characterised. -/
theorem weekly_update_core_ok_iff (env : Env) (store : Store)
    (userArg : Option (List Char)) (a t : List Char)
    (results : List (List Char)) :
    weekly_update_core env store userArg = .ok (a, t, results) ↔
      ∃ sess, lookupStore store (userArg.getD default_user) = some sess ∧
        env.generate (mkUserInfo (userArg.getD default_user) sess)
            (mkHealthInfo sess) = .ok a ∧
        t = (match extract_tool a with
             | some tc => tc
             | none =>
                 fallback_tool_call (mkHealthInfo sess).condition
                   (mkUserInfo (userArg.getD default_user) sess).news_pref) ∧
        evalCall env t = .ok results := by
  constructor
  · intro h
    unfold weekly_update_core at h
    dsimp only at h
    split at h
    · exact absurd h (by simp)
    · rename_i sess hlook
      try dsimp only at h
      split at h
      · exact absurd h (by simp)
      · rename_i resp hgen
        split at h
        · exact absurd h (by simp)
        · rename_i res heval
          simp only [Except.ok.injEq, Prod.mk.injEq] at h
          obtain ⟨rfl, rfl, rfl⟩ := h
          exact ⟨sess, hlook, hgen, rfl, heval⟩
  · rintro ⟨sess, hlook, hgen, rfl, heval⟩
    simp only [weekly_update_core, hlook, hgen, heval]

/-- Claim C1, amended: a successful weekly update carries exactly the
result list of the single executed tool call — its length is whatever
that call returned, and the rendered response shows exactly those
entries, with no padding to a fixed count. -/
theorem digest_results_from_single_call (env : Env) (store : Store)
    (userArg : Option (List Char)) (a t : List Char)
    (results : List (List Char))
    (h : weekly_update_core env store userArg = .ok (a, t, results)) :
    evalCall env t = .ok results ∧
    (weekly_update env store userArg).1 = .ok a t (render_results results) := by
  obtain ⟨sess, hlook, hgen, ht, heval⟩ :=
    (weekly_update_core_ok_iff env store userArg a t results).mp h
  refine ⟨heval, ?_⟩
  unfold weekly_update
  rw [h]

/-- Witness for digest_results_from_single_call on a concrete run. -/
theorem digest_results_from_single_call_witness :
    evalCall envTwoResults txtOneCall =
      .ok ["https://a.example/1".toList, "https://b.example/2".toList] ∧
    (weekly_update envTwoResults storeEx aliceArg).1 =
      .ok txtOneCall txtOneCall
        (render_results
          ["https://a.example/1".toList, "https://b.example/2".toList]) :=
  digest_results_from_single_call envTwoResults storeEx aliceArg
    txtOneCall txtOneCall
    ["https://a.example/1".toList, "https://b.example/2".toList] rfl

/-- Claim C2, counterexample: facing an agent response that holds three
distinct grammar-valid youtube_search calls, the route collects and
executes only the first — there is no N-collection loop. -/
theorem only_first_call_collected :
    extract_tool txtThreeCalls = some ("youtube_search(\"a\")".toList) ∧
    weekly_update_core envThreeCalls storeEx aliceArg =
      .ok (txtThreeCalls, "youtube_search(\"a\")".toList,
        ["https://www.youtube.com/watch?v=x1".toList]) :=
  ⟨rfl, rfl⟩

/-- Claim C2, amended: per request exactly one tool call is collected —
the first match extract_tool finds in the agent response, or, when
there is none, the fallback call mapped from the news preference. -/
theorem executed_call_extracted_or_fallback (env : Env) (store : Store)
    (userArg : Option (List Char)) (a t : List Char)
    (results : List (List Char))
    (h : weekly_update_core env store userArg = .ok (a, t, results)) :
    extract_tool a = some t ∨
      (extract_tool a = none ∧
        ∃ sess, lookupStore store (userArg.getD default_user) = some sess ∧
          t = fallback_tool_call (mkHealthInfo sess).condition
                (mkUserInfo (userArg.getD default_user) sess).news_pref) := by
  obtain ⟨sess, hlook, hgen, ht, heval⟩ :=
    (weekly_update_core_ok_iff env store userArg a t results).mp h
  rcases hext : extract_tool a with _ | tc
  · rw [hext] at ht
    exact Or.inr ⟨rfl, sess, hlook, ht⟩
  · rw [hext] at ht
    subst ht
    exact Or.inl rfl

/-- Witness for executed_call_extracted_or_fallback on a concrete run. -/
theorem executed_call_extracted_or_fallback_witness :
    extract_tool txtThreeCalls = some ("youtube_search(\"a\")".toList) ∨
      (extract_tool txtThreeCalls = none ∧
        ∃ sess, lookupStore storeEx (aliceArg.getD default_user) = some sess ∧
          ("youtube_search(\"a\")".toList : List Char) =
            fallback_tool_call (mkHealthInfo sess).condition
              (mkUserInfo (aliceArg.getD default_user) sess).news_pref) :=
  executed_call_extracted_or_fallback envThreeCalls storeEx aliceArg
    txtThreeCalls ("youtube_search(\"a\")".toList)
    ["https://www.youtube.com/watch?v=x1".toList] rfl

/-- Claim C3, counterexample: a generic search-backend failure is not
absorbed into an "Error fetching results" digest entry; it aborts the
whole request with a 500 error response. -/
theorem search_failure_surfaces_500 :
    (weekly_update envBackendDown storeEx aliceArg).1 = .err .backendFailure :=
  rfl

/-- Claim C3, amended: a missing profile yields the 404 response; but a
failure below the per-tool-call granularity is not absorbed into a
sentinel entry: a generation failure, and an eval or search failure
while executing the one tool call — extracted or fallback alike — each
abort the request with a 500 error response carrying the exception; and
an empty search result yields the empty results string, not a sentinel
entry. -/
theorem request_level_errors (env : Env) (store : Store)
    (userArg : Option (List Char)) :
    (lookupStore store (userArg.getD default_user) = none →
        (weekly_update env store userArg).1 = .notFound) ∧
    (∀ sess e,
        lookupStore store (userArg.getD default_user) = some sess →
        env.generate (mkUserInfo (userArg.getD default_user) sess)
            (mkHealthInfo sess) = .error e →
        (weekly_update env store userArg).1 = .err e) ∧
    (∀ sess txt call e,
        lookupStore store (userArg.getD default_user) = some sess →
        env.generate (mkUserInfo (userArg.getD default_user) sess)
            (mkHealthInfo sess) = .ok txt →
        (match extract_tool txt with
         | some tc => tc
         | none =>
             fallback_tool_call (mkHealthInfo sess).condition
               (mkUserInfo (userArg.getD default_user) sess).news_pref) = call →
        evalCall env call = .error e →
        (weekly_update env store userArg).1 = .err e) ∧
    (∀ sess txt call,
        lookupStore store (userArg.getD default_user) = some sess →
        env.generate (mkUserInfo (userArg.getD default_user) sess)
            (mkHealthInfo sess) = .ok txt →
        (match extract_tool txt with
         | some tc => tc
         | none =>
             fallback_tool_call (mkHealthInfo sess).condition
               (mkUserInfo (userArg.getD default_user) sess).news_pref) = call →
        evalCall env call = .ok [] →
        (weekly_update env store userArg).1 = .ok txt call []) := by
  refine ⟨?_, ?_, ?_, ?_⟩
  · intro h
    simp only [weekly_update, weekly_update_core, h]
  · intro sess e hlook hgen
    simp only [weekly_update, weekly_update_core, hlook, hgen]
  · intro sess txt call e hlook hgen hcall heval
    simp only [weekly_update, weekly_update_core, hlook, hgen, hcall, heval]
  · intro sess txt call hlook hgen hcall heval
    simp only [weekly_update, weekly_update_core, hlook, hgen, hcall, heval,
      render_results, List.map_nil]
    rfl

/-- Witness for request_level_errors: empty store gives 404; a raising
LLM call gives 500; a failing backend gives 500 on the extracted path
and on the fallback path; an empty search result gives the empty
results string. -/
theorem request_level_errors_witness :
    (weekly_update envBackendDown ([] : Store) aliceArg).1 = .notFound ∧
    (weekly_update envGenDown storeEx aliceArg).1 = .err .agentFailure ∧
    (weekly_update envBackendDown storeEx aliceArg).1 = .err .backendFailure ∧
    (weekly_update envMalformedDown storeEx aliceArg).1 = .err .backendFailure ∧
    (weekly_update envEmptyResults storeEx aliceArg).1 =
      .ok txtOneCall txtOneCall [] :=
  ⟨(request_level_errors envBackendDown [] aliceArg).1 rfl,
   (request_level_errors envGenDown storeEx aliceArg).2.1 sessEx
      .agentFailure rfl rfl,
   (request_level_errors envBackendDown storeEx aliceArg).2.2.1 sessEx
      txtOneCall txtOneCall .backendFailure rfl rfl rfl rfl,
   (request_level_errors envMalformedDown storeEx aliceArg).2.2.1 sessEx
      txtNoCall
      (fallback_tool_call (mkHealthInfo sessEx).condition
        (mkUserInfo (aliceArg.getD default_user) sessEx).news_pref)
      .backendFailure rfl rfl rfl rfl,
   (request_level_errors envEmptyResults storeEx aliceArg).2.2.2 sessEx
      txtOneCall txtOneCall rfl rfl rfl rfl⟩

/-- Claim C4, counterexample: on malformed agent text the route does not
return three "No call generated" entries: it executes one fallback
search call tool("<condition> tips") and returns the single result
of that call. -/
theorem fallback_executes_search :
    extract_tool txtNoCall = none ∧
    weekly_update_core envMalformed storeEx aliceArg =
      .ok (txtNoCall, "websearch(\"diabetes tips\")".toList,
        ["https://news.example/x".toList]) :=
  ⟨rfl, rfl⟩

/-- Claim C4, amended: when the agent text holds no recognisable tool
call, the route executes the single fallback call built from the news
preference and the condition, and returns the results of that call. -/
theorem no_call_fallback_single (env : Env) (store : Store)
    (userArg : Option (List Char)) (sess : Session) (txt : List Char)
    (rs : List (List Char))
    (hlook : lookupStore store (userArg.getD default_user) = some sess)
    (hgen : env.generate (mkUserInfo (userArg.getD default_user) sess)
        (mkHealthInfo sess) = .ok txt)
    (hext : extract_tool txt = none)
    (heval : evalCall env
        (fallback_tool_call (mkHealthInfo sess).condition
          (mkUserInfo (userArg.getD default_user) sess).news_pref) = .ok rs) :
    (weekly_update env store userArg).1 =
      .ok txt
        (fallback_tool_call (mkHealthInfo sess).condition
          (mkUserInfo (userArg.getD default_user) sess).news_pref)
        (render_results rs) := by
  simp only [weekly_update, weekly_update_core, hlook, hgen, hext, heval]

/-- Witness for no_call_fallback_single on a concrete malformed run. -/
theorem no_call_fallback_single_witness :
    (weekly_update envMalformed storeEx aliceArg).1 =
      .ok txtNoCall
        (fallback_tool_call (mkHealthInfo sessEx).condition
          (mkUserInfo (aliceArg.getD default_user) sessEx).news_pref)
        (render_results ["https://news.example/x".toList]) :=
  no_call_fallback_single envMalformed storeEx aliceArg sessEx txtNoCall
    ["https://news.example/x".toList] rfl rfl rfl rfl

/-- Helper: scanning text whose first close parenthesis ends the prefix l
returns exactly l. -/
theorem scanInner_closed (l r : List Char) (h : ')' ∉ l) :
    scanInner (l ++ ')' :: r) = some l := by
  induction l with
  | nil => simp [scanInner]
  | cons c rest ih =>
      rw [List.mem_cons, not_or] at h
      obtain ⟨hc, hrest⟩ := h
      have hc' : ¬ (c = ')') := fun hcc => hc hcc.symm
      simp [scanInner, hc', ih hrest]

/-- Helper: a list is a Boolean prefix of itself followed by anything. -/
theorem isPrefixOf_self_append (l r : List Char) :
    l.isPrefixOf (l ++ r) = true := by
  rw [ List.isPrefixOf_iff_prefix]
  exact List.prefix_append l r

/-- Helper: the regex match succeeds at position zero on a rendered call
whose query has no close parenthesis, returning the whole call text. -/
theorem matchToolFrom_render (tool q : List Char) (htool : tool ≠ [])
    (hq : ')' ∉ q) :
    matchToolFrom tool (render_call tool q) = some (render_call tool q) := by
  obtain ⟨c, ts, rfl⟩ := List.exists_cons_of_ne_nil htool
  have hsplit : render_call (c :: ts) q =
      c :: (ts ++ '(' :: ('"' :: (q ++ ['"', ')']))) := by
    simp [render_call]
  have hsplit2 : c :: (ts ++ '(' :: ('"' :: (q ++ ['"', ')']))) =
      ((c :: ts) ++ ['(']) ++ ('"' :: (q ++ ['"', ')'])) := by
    simp
  have hpre : ((c :: ts) ++ ['(']).isPrefixOf
      (c :: (ts ++ '(' :: ('"' :: (q ++ ['"', ')'])))) = true := by
    rw [hsplit2]
    exact isPrefixOf_self_append _ _
  have hdrop : (c :: (ts ++ '(' :: ('"' :: (q ++ ['"', ')'])))).drop
      ((c :: ts).length + 1) = '"' :: (q ++ ['"', ')']) := by
    rw [hsplit2]
    have hlen : (c :: ts).length + 1 = ((c :: ts) ++ ['(']).length := by simp
    rw [hlen, List.drop_left]
  have hscan : scanInner ('"' :: (q ++ ['"', ')'])) =
      some ('"' :: (q ++ ['"'])) := by
    have h1 : ('"' :: (q ++ ['"', ')'])) = ('"' :: (q ++ ['"'])) ++ ')' :: [] := by
      simp
    rw [h1]
    apply scanInner_closed
    intro hm
    rcases List.mem_cons.mp hm with h | h
    · exact absurd h (by decide)
    · rcases List.mem_append.mp h with h | h
      · exact hq h
      · exact absurd h (by decide)
  rw [hsplit]
  simp only [matchToolFrom, hpre, if_true, hdrop, hscan]
  simp

/-- Helper: when first occurrences of a character split a list the same
way, the left pieces agree. -/
theorem splitFirst_unique (c : Char) (l₁ : List Char) :
    ∀ (l₂ r₁ r₂ : List Char), l₁ ++ c :: r₁ = l₂ ++ c :: r₂ →
      c ∉ l₁ → c ∉ l₂ → l₁ = l₂ := by
  induction l₁ with
  | nil =>
      intro l₂ r₁ r₂ h h₁ h₂
      cases l₂ with
      | nil => rfl
      | cons d l =>
          exfalso
          simp only [List.nil_append, List.cons_append, List.cons.injEq] at h
          exact h₂ (by rw [List.mem_cons]; exact Or.inl h.1)
  | cons a l ih =>
      intro l₂ r₁ r₂ h h₁ h₂
      cases l₂ with
      | nil =>
          exfalso
          simp only [List.nil_append, List.cons_append, List.cons.injEq] at h
          exact h₁ (by rw [List.mem_cons]; exact Or.inl h.1.symm)
      | cons d l₂' =>
          simp only [List.cons_append, List.cons.injEq] at h
          obtain ⟨rfl, h'⟩ := h
          have h₁' : c ∉ l := fun hm => h₁ (List.mem_cons_of_mem _ hm)
          have h₂' : c ∉ l₂' := fun hm => h₂ (List.mem_cons_of_mem _ hm)
          rw [ih l₂' r₁ r₂ h' h₁' h₂']

/-- Helper: when the only open parenthesis of the text is the one after b,
a pattern of the shape a-then-open-parenthesis sitting inside the text
forces a to be a suffix of b. -/
theorem infix_paren_suffix (a b t : List Char)
    (ha : '(' ∉ a) (hb : '(' ∉ b) (ht : '(' ∉ t)
    (h : (a ++ ['(']) <:+: (b ++ '(' :: t)) : a <:+ b := by
  obtain ⟨u, v, huv⟩ := h
  have hcount : (b ++ '(' :: t).count '(' = 1 := by
    simp [List.count_append, List.count_cons, List.count_eq_zero.mpr hb,
          List.count_eq_zero.mpr ht]
  rw [← huv] at hcount
  have hcu : u.count '(' = 0 := by
    simp [List.count_append, List.count_cons,
          List.count_eq_zero.mpr ha] at hcount
    omega
  have hu : '(' ∉ u := List.count_eq_zero.mp hcu
  have h2 : (u ++ a) ++ '(' :: v = b ++ '(' :: t := by
    simpa [List.append_assoc] using huv
  have hua : u ++ a = b :=
    splitFirst_unique '(' (u ++ a) b v t h2
      (fun hm => (List.mem_append.mp hm).elim (fun hx => hu hx) (fun hx => ha hx))
      hb
  exact ⟨u, hua⟩

/-- Helper: if the tool pattern occurs nowhere in the text, the regex
search fails. -/
theorem matchToolFrom_eq_none (tool : List Char) :
    ∀ (s : List Char), ¬ ((tool ++ ['(']) <:+: s) →
      matchToolFrom tool s = none := by
  intro s
  induction s with
  | nil => intro _; rfl
  | cons c rest ih =>
      intro h
      have hpre : (tool ++ ['(']).isPrefixOf (c :: rest) = false := by
        by_contra hc
        rw [Bool.not_eq_false, List.isPrefixOf_iff_prefix] at hc
        exact h hc.isInfix
      simp only [matchToolFrom, hpre, Bool.false_eq_true, if_false]
      exact ih (fun hinf => h (List.infix_cons hinf))

/-- Helper: a tool name that is not a suffix of the rendered tool name
matches nowhere in the rendered call (whose query has no open
parenthesis). -/
theorem matchToolFrom_render_other (a b q : List Char)
    (ha : '(' ∉ a) (hb : '(' ∉ b) (hq : '(' ∉ q)
    (hsuf : ¬ a <:+ b) :
    matchToolFrom a (render_call b q) = none := by
  apply matchToolFrom_eq_none
  intro hinf
  apply hsuf
  have hsplit : render_call b q = b ++ '(' :: ('"' :: (q ++ ['"', ')'])) := by
    simp [render_call]
  rw [hsplit] at hinf
  refine infix_paren_suffix a b ('"' :: (q ++ ['"', ')'])) ha hb ?_ hinf
  intro hm
  rcases List.mem_cons.mp hm with h | h
  · exact absurd h (by decide)
  · rcases List.mem_append.mp h with h | h
    · exact hq h
    · exact absurd h (by decide)

/-- Claim C7, amended: for every recognised tool name, parsing the
rendered line toolName("query") returns exactly that full call line for
every query containing no parenthesis — with no validation of
non-emptiness. -/
theorem extract_tool_roundtrip (tool q : List Char) (ht : tool ∈ toolList)
    (h1 : '(' ∉ q) (h2 : ')' ∉ q) :
    extract_tool (render_call tool q) = some (render_call tool q) := by
  simp only [toolList, List.mem_cons, List.not_mem_nil, or_false] at ht
  rcases ht with rfl | rfl | rfl | rfl | rfl
  · simp only [extract_tool, toolList, List.findSome?_cons,
      matchToolFrom_render ("websearch".toList) q (by decide) h2]
  · simp only [extract_tool, toolList, List.findSome?_cons,
      matchToolFrom_render_other ("websearch".toList) ("get_page".toList) q
        (by decide) (by decide) h1 (by decide),
      matchToolFrom_render ("get_page".toList) q (by decide) h2]
  · simp only [extract_tool, toolList, List.findSome?_cons,
      matchToolFrom_render_other ("websearch".toList) ("youtube_search".toList) q
        (by decide) (by decide) h1 (by decide),
      matchToolFrom_render_other ("get_page".toList) ("youtube_search".toList) q
        (by decide) (by decide) h1 (by decide),
      matchToolFrom_render ("youtube_search".toList) q (by decide) h2]
  · simp only [extract_tool, toolList, List.findSome?_cons,
      matchToolFrom_render_other ("websearch".toList) ("tiktok_search".toList) q
        (by decide) (by decide) h1 (by decide),
      matchToolFrom_render_other ("get_page".toList) ("tiktok_search".toList) q
        (by decide) (by decide) h1 (by decide),
      matchToolFrom_render_other ("youtube_search".toList) ("tiktok_search".toList) q
        (by decide) (by decide) h1 (by decide),
      matchToolFrom_render ("tiktok_search".toList) q (by decide) h2]
  · simp only [extract_tool, toolList, List.findSome?_cons,
      matchToolFrom_render_other ("websearch".toList) ("instagram_search".toList) q
        (by decide) (by decide) h1 (by decide),
      matchToolFrom_render_other ("get_page".toList) ("instagram_search".toList) q
        (by decide) (by decide) h1 (by decide),
      matchToolFrom_render_other ("youtube_search".toList) ("instagram_search".toList) q
        (by decide) (by decide) h1 (by decide),
      matchToolFrom_render_other ("tiktok_search".toList) ("instagram_search".toList) q
        (by decide) (by decide) h1 (by decide),
      matchToolFrom_render ("instagram_search".toList) q (by decide) h2]

/-- Witness for extract_tool_roundtrip at a concrete tool and query. -/
theorem extract_tool_roundtrip_witness :
    (("youtube_search".toList ∈ toolList) ∧
      '(' ∉ "gut health".toList ∧ ')' ∉ "gut health".toList) ∧
    extract_tool (render_call ("youtube_search".toList) ("gut health".toList)) =
      some (render_call ("youtube_search".toList) ("gut health".toList)) :=
  ⟨⟨by decide, by decide, by decide⟩,
   extract_tool_roundtrip ("youtube_search".toList) ("gut health".toList)
     (by decide) (by decide) (by decide)⟩

/-- Claim C7, counterexample: a call with empty query text is accepted,
not rejected, and a quote-free query containing a close parenthesis
breaks the round trip — the match stops at the first close
parenthesis. -/
theorem extract_tool_accepts_empty_query :
    extract_tool ("websearch()".toList) = some ("websearch()".toList) ∧
    extract_tool (render_call ("websearch".toList) ("a)b".toList)) =
      some ("websearch(\"a)".toList) ∧
    ("websearch(\"a)".toList : List Char) ≠
      render_call ("websearch".toList) ("a)b".toList) :=
  ⟨rfl, rfl, by decide⟩
